import Mathlib

/-!
# Verification of the Wiz vulnerability-report classification engine

Shallow embedding of the repository's record-classification scripts
(`gem.py`, `all.py`, `claude_v2.py`, `refactor.py`).  Python strings are
modelled as lists of Unicode code points (`List Nat`); pandas dataframes as
lists of records whose optional fields model NaN cells; pandas boolean masks
as `Bool`-valued predicates on records.
-/

namespace WizSpec

/-! ## Python string model -/

/-- A Python string, as its list of Unicode code points. -/
abbrev PyStr := List Nat

/-- Embed a Lean string literal as a `PyStr`. -/
def pstr (s : String) : PyStr := s.toList.map Char.toNat

/-- Python `str.strip()` whitespace class (ASCII part): TAB..CR and space. -/
def isSpaceChar (c : Nat) : Bool := decide (c = 32 ∨ (9 ≤ c ∧ c ≤ 13))

/-- ASCII upper-case letter. -/
def isUpperChar (c : Nat) : Bool := decide (65 ≤ c ∧ c ≤ 90)

/-- ASCII lower-case letter. -/
def isLowChar (c : Nat) : Bool := decide (97 ≤ c ∧ c ≤ 122)

/-- ASCII letter (the cased characters relevant to `str.title`). -/
def isAlphaChar (c : Nat) : Bool := isUpperChar c || isLowChar c

/-- Python `str.lower` on one character (ASCII). -/
def lowerChar (c : Nat) : Nat := if isUpperChar c then c + 32 else c

/-- Python `str.upper` on one character (ASCII). -/
def upperChar (c : Nat) : Nat := if isLowChar c then c - 32 else c

/-- Python `str.lower()`. -/
def pyLower (s : PyStr) : PyStr := s.map lowerChar

/-- Python `str.strip()`: drop whitespace from both ends. -/
def pyStrip (s : PyStr) : PyStr :=
  List.rdropWhile isSpaceChar (List.dropWhile isSpaceChar s)

/-- One step of Python `str.title()`: a cased character is upper-cased after
a non-cased character and lower-cased after a cased one. -/
def titleChar (prevAlpha : Bool) (c : Nat) : Nat :=
  if isAlphaChar c then (if prevAlpha then lowerChar c else upperChar c) else c

/-- The recursion behind Python `str.title()`, carrying whether the previous
character was cased. -/
def titleGo (prevAlpha : Bool) : PyStr → PyStr
  | [] => []
  | c :: cs => titleChar prevAlpha c :: titleGo (isAlphaChar c) cs

/-- Python `str.title()`. -/
def pyTitle (s : PyStr) : PyStr := titleGo false s

/-! ## gem.py -/

namespace Gem

/-- The canonical severity taxonomy, in display order (gem.py line 179). -/
def categories : List PyStr :=
  [pstr "Critical", pstr "High", pstr "Medium", pstr "Low", pstr "None"]

/-- The function `normalize_severity` (gem.py lines 27-48).  `none` is a NaN cell
(`pd.isna`); its argument is otherwise the raw severity string. -/
def normalize_severity (val : Option PyStr) : PyStr :=
  match val with
  | none => pstr "None"
  | some v =>
    if pyStrip v = [] then pstr "None"
    else if pstr "critical" <:+: pyLower (pyStrip v) then pstr "Critical"
    else if pstr "high" <:+: pyLower (pyStrip v) then pstr "High"
    else if pstr "medium" <:+: pyLower (pyStrip v) then pstr "Medium"
    else if pstr "low" <:+: pyLower (pyStrip v) then pstr "Low"
    else if pyLower (pyStrip v) = pstr "none" ∨ pyLower (pyStrip v) = pstr "na" ∨
        pyLower (pyStrip v) = pstr "n/a" then pstr "None"
    else pyTitle (pyStrip v)

/-- One row of the input table, restricted to the three columns gem.py
reads (`AssetName`, `LocationPath`, `VendorSeverity`).  `none` is a NaN
cell (the file is read with `dtype=str`, so every non-NaN cell is a
string). -/
structure Row where
  assetName : Option PyStr
  locationPath : Option PyStr
  vendorSeverity : Option PyStr
deriving DecidableEq, Repr

/-- gem.py lines 129-131: `fillna("")` on the three working columns of
`df_work` (the severity column is filled with the empty string as well). -/
structure WorkRow where
  assetName : PyStr
  locationPath : PyStr
  vendorSeverity : PyStr
deriving DecidableEq, Repr

/-- The `fillna` cleaning producing `df_work` (gem.py lines 126-131). -/
def toWork (r : Row) : WorkRow :=
  ⟨r.assetName.getD [], r.locationPath.getD [], r.vendorSeverity.getD []⟩

/-- gem.py line 142: `asset_lower.str.contains("bamboo")`. -/
def is_bamboo (r : WorkRow) : Bool :=
  decide (pstr "bamboo" <:+: pyLower r.assetName)

/-- Helper for the regex `.m2` of gem.py line 147 (`str.contains` defaults
to `regex=True`, so `.` matches any character other than a newline,
code point 10; `m` is 109 and `2` is 50). -/
def dotM2At : List Nat → Bool
  | a :: b :: c :: _ => (a != 10) && (b == 109) && (c == 50)
  | _ => false

/-- Python `re.search` of the pattern `.m2` anywhere in the string. -/
def containsDotM2 (l : PyStr) : Bool := l.tails.any dotM2At

/-- gem.py line 147: `loc_lower.str.contains(".m2") |
loc_lower.str.contains("xml-data")` (the first pattern is a regex). -/
def dev_mask (r : WorkRow) : Bool :=
  containsDotM2 (pyLower r.locationPath) ||
    decide (pstr "xml-data" <:+: pyLower r.locationPath)

/-- gem.py line 149: Dev = bamboo pool with a dev location. -/
def dev_mask_pool (r : WorkRow) : Bool := is_bamboo r && dev_mask r

/-- gem.py line 150: SRE = rest of the bamboo pool. -/
def sre_mask_pool (r : WorkRow) : Bool := is_bamboo r && !dev_mask r

/-- gem.py line 143: DB team = everything outside the bamboo pool. -/
def in_db_team (r : WorkRow) : Bool := !is_bamboo r

/-- gem.py line 153: `df_dev = df_work[dev_mask_pool]`. -/
def df_dev (rows : List Row) : List WorkRow :=
  (rows.map toWork).filter dev_mask_pool

/-- gem.py line 154: `df_sre = df_work[sre_mask_pool]`. -/
def df_sre (rows : List Row) : List WorkRow :=
  (rows.map toWork).filter sre_mask_pool

/-- gem.py line 152: `df_db = df_work[in_db_team]`. -/
def df_db (rows : List Row) : List WorkRow :=
  (rows.map toWork).filter in_db_team

/-- gem.py lines 157-160: the `___severity_norm__` helper column. -/
def severityNorm (r : WorkRow) : PyStr := normalize_severity (some r.vendorSeverity)

/-- The function `count_severities` (gem.py lines 50-53): counts per category, in the
given order, of an already-normalized severity series. -/
def count_severities (norms : List PyStr) : List (PyStr × Nat) :=
  categories.map fun c => (c, norms.countP (· == c))

/-- The `.get(sev, 0)` lookup in a counts dict. -/
def dictGet (d : List (PyStr × Nat)) (k : PyStr) : Nat :=
  match d.find? (fun p => p.1 == k) with
  | some p => p.2
  | none => 0

/-- gem.py line 181: the Total column counts the whole normalized table. -/
def counts_total (rows : List Row) : List (PyStr × Nat) :=
  count_severities ((rows.map toWork).map severityNorm)

/-- gem.py line 182. -/
def counts_sre (rows : List Row) : List (PyStr × Nat) :=
  count_severities ((df_sre rows).map severityNorm)

/-- gem.py line 183. -/
def counts_dev (rows : List Row) : List (PyStr × Nat) :=
  count_severities ((df_dev rows).map severityNorm)

/-- gem.py line 184. -/
def counts_db (rows : List Row) : List (PyStr × Nat) :=
  count_severities ((df_db rows).map severityNorm)

/-- Pandas `df.drop(columns=..., errors="ignore")` on the column list of a frame:
the named columns are removed, silently when absent. -/
def dropColumns (cols toDrop : List String) : List String :=
  cols.filter fun c => decide (c ∉ toDrop)

/-- gem.py lines 157-160 add the helper column `___severity_norm__` (three
leading underscores) at the end of each team frame's columns. -/
def exportedColumns (baseCols : List String) : List String :=
  baseCols ++ ["___severity_norm__"]

/-- gem.py lines 168-170: before `to_excel`, the code drops the column
`__severity_norm__` (two leading underscores) with `errors="ignore"`. -/
def savedColumns (baseCols : List String) : List String :=
  dropColumns (exportedColumns baseCols) ["__severity_norm__"]

/-- Fatal errors of gem.py's `main` (reported through `exit_err`). -/
inductive GemError
  | emptyInput
deriving DecidableEq, Repr

/-- The deliverables of gem.py's `main`: the three team tables and the
four severity-count dicts. -/
structure Output where
  db : List WorkRow
  dev : List WorkRow
  sre : List WorkRow
  countsTotal : List (PyStr × Nat)
  countsSre : List (PyStr × Nat)
  countsDev : List (PyStr × Nat)
  countsDb : List (PyStr × Nat)
deriving DecidableEq, Repr

/-- gem.py `main`, from the point where the table is in memory (lines
103-195): the zero-row check of lines 103-104 exits before any
segmentation; otherwise the teams are split and the summaries built.
Column resolution (lines 111-123) is schema-level and outside this row
model. -/
def main (rows : List Row) : Except GemError Output :=
  if rows.length = 0 then Except.error GemError.emptyInput
  else Except.ok
    { db := df_db rows
      dev := df_dev rows
      sre := df_sre rows
      countsTotal := counts_total rows
      countsSre := counts_sre rows
      countsDev := counts_dev rows
      countsDb := counts_db rows }

end Gem

/-! ## all.py / claude_v2.py (the broker-portal analyzer) -/

namespace AllPy

/-- One row of the input table, restricted to the columns all.py reads.
`none` models a NaN cell or, for `hasExploit`, also a missing column. -/
structure Row where
  assetName : Option PyStr
  locationPath : Option PyStr
  vendorSeverity : Option PyStr
  hasExploit : Option PyStr
deriving DecidableEq, Repr

/-- all.py lines 58-65: `VendorSeverity.fillna('None')` followed by the
exact-value `replace({'none': 'None', 'info': 'None', 'Info': 'None'})`. -/
def cleanSeverity (v : Option PyStr) : PyStr :=
  if v.getD (pstr "None") = pstr "none" ∨ v.getD (pstr "None") = pstr "info" ∨
      v.getD (pstr "None") = pstr "Info" then pstr "None"
  else v.getD (pstr "None")

/-- A row after the in-place cleaning of `filter_teams` (all.py lines
55-65): asset and location filled with the empty string, severity
normalized; `HasExploit` is left untouched. -/
structure CRow where
  assetName : PyStr
  locationPath : PyStr
  vendorSeverity : PyStr
  hasExploit : Option PyStr
deriving DecidableEq, Repr

/-- The cleaning step of `filter_teams` (all.py lines 55-65). -/
def cleanRow (r : Row) : CRow :=
  ⟨r.assetName.getD [], r.locationPath.getD [], cleanSeverity r.vendorSeverity,
    r.hasExploit⟩

/-- Re-read a cleaned row as a raw row (every cell present). -/
def toRow (c : CRow) : Row :=
  ⟨some c.assetName, some c.locationPath, some c.vendorSeverity, c.hasExploit⟩

/-- all.py line 68: `AssetName.str.lower().str.contains('bamboo',
regex=False)`. -/
def bamboo_mask (r : CRow) : Bool :=
  decide (pstr "bamboo" <:+: pyLower r.assetName)

/-- all.py lines 71-74: `LocationPath.str.contains('.m2', regex=False) |
LocationPath.str.contains('xml-data', regex=False)` — literal,
case-sensitive substring tests. -/
def devLoc_mask (r : CRow) : Bool :=
  decide (pstr ".m2" <:+: r.locationPath) ||
    decide (pstr "xml-data" <:+: r.locationPath)

/-- all.py line 71: Dev = bamboo assets with a dev location path. -/
def dev_mask (r : CRow) : Bool := bamboo_mask r && devLoc_mask r

/-- all.py line 76: `sre_mask = bamboo_mask & ~dev_mask`. -/
def sre_mask (r : CRow) : Bool := bamboo_mask r && !dev_mask r

/-- all.py line 79: `AssetName.str.lower().str.contains('tableau',
regex=False)`. -/
def tableau_mask (r : CRow) : Bool :=
  decide (pstr "tableau" <:+: pyLower r.assetName)

/-- all.py line 80: `db_mask = ~bamboo_mask & ~tableau_mask`. -/
def db_mask (r : CRow) : Bool := !bamboo_mask r && !tableau_mask r

/-- all.py line 88: `dev_team_df = df[dev_mask]`. -/
def dev_team_df (rows : List Row) : List CRow :=
  (rows.map cleanRow).filter dev_mask

/-- all.py line 89: `sre_team_df = df[sre_mask]`. -/
def sre_team_df (rows : List Row) : List CRow :=
  (rows.map cleanRow).filter sre_mask

/-- all.py line 90: `db_team_df = df[db_mask]`. -/
def db_team_df (rows : List Row) : List CRow :=
  (rows.map cleanRow).filter db_mask

/-- The three ownership groups of the broker profile. -/
inductive Team
  | dev
  | sre
  | db
deriving DecidableEq, Repr

/-- The group a cleaned record is assigned to by `filter_teams`; `none`
when the record falls in no team frame. -/
def assignTeam (r : CRow) : Option Team :=
  if dev_mask r then some Team.dev
  else if sre_mask r then some Team.sre
  else if db_mask r then some Team.db
  else none

/-- The method `get_severity_counts` (all.py lines 96-104): per-level counts of a team
frame's normalized severity column, plus the `Total` key holding the frame
length. -/
def get_severity_counts (df : List CRow) (key : PyStr) : Nat :=
  if key = pstr "Total" then df.length
  else df.countP fun r => r.vendorSeverity == key

/-- all.py lines 143-147 (equally claude_v2.py lines 137-140): the Total
column is the key-wise sum of the three team dicts. -/
def total_counts (rows : List Row) (key : PyStr) : Nat :=
  get_severity_counts (dev_team_df rows) key +
    get_severity_counts (sre_team_df rows) key +
    get_severity_counts (db_team_df rows) key

/-- all.py line 248: `HasExploit.astype(str).str.lower()`; a NaN cell
renders as the string `"nan"` under `astype(str)`. -/
def exploitFlagLower (r : CRow) : PyStr := pyLower (r.hasExploit.getD (pstr "nan"))

/-- all.py line 248: membership in `['yes', 'true']`. -/
def exploit_mask (r : CRow) : Bool :=
  exploitFlagLower r == pstr "yes" || exploitFlagLower r == pstr "true"

/-- all.py line 249: `exploit_df = df[exploit_mask]`. -/
def exploit_df (df : List CRow) : List CRow := df.filter exploit_mask

/-- all.py line 254: rows of `exploit_df` at one severity level. -/
def exploit_sev_count (df : List CRow) (sev : PyStr) : Nat :=
  (exploit_df df).countP fun r => r.vendorSeverity == sev

/-- The method `_get_exploit_counts` (all.py lines 238-258).  `hasExploitCol` models
whether the `HasExploit` column is present in the frame's schema.  The
loop of lines 252-256 inserts a key only when its count is strictly
positive, for the severities Critical then High. -/
def get_exploit_counts (hasExploitCol : Bool) (df : List CRow) :
    List (PyStr × Nat) :=
  if df.length = 0 then []
  else if !hasExploitCol then []
  else
    (if 0 < exploit_sev_count df (pstr "Critical")
      then [(pstr "Critical", exploit_sev_count df (pstr "Critical"))] else []) ++
      (if 0 < exploit_sev_count df (pstr "High")
        then [(pstr "High", exploit_sev_count df (pstr "High"))] else [])

/-- all.py lines 174-181: the `HasExploit_True` summary column down the
rows Total, Critical, High, Medium, Low, None — a count only in the
Critical and High rows, an empty cell elsewhere. -/
def hasExploitTrueColumn (hasExploitCol : Bool) (rows : List Row) :
    List (Option Nat) :=
  let d := get_exploit_counts hasExploitCol (sre_team_df rows)
  [none, some (Gem.dictGet d (pstr "Critical")), some (Gem.dictGet d (pstr "High")),
    none, none, none]

end AllPy

/-! ## refactor.py -/

namespace Refactor

/-- The method `get_hasexploit_counts` (refactor.py lines 235-247): `(0, 0)` when the
`HasExploit` column is absent; otherwise the Critical and High counts of
the rows whose flag, lower-cased then stripped, is `yes` or `true`. -/
def get_hasexploit_counts (hasExploitCol : Bool) (df : List AllPy.CRow) :
    Nat × Nat :=
  if !hasExploitCol then (0, 0)
  else
    let e := df.filter fun r =>
      pyStrip (pyLower (r.hasExploit.getD (pstr "nan"))) == pstr "yes" ||
        pyStrip (pyLower (r.hasExploit.getD (pstr "nan"))) == pstr "true"
    (e.countP fun r => r.vendorSeverity == pstr "Critical",
      e.countP fun r => r.vendorSeverity == pstr "High")

end Refactor

/-! ### Character-level facts about the ASCII case maps -/

theorem lowerChar_lowerChar (c : Nat) : lowerChar (lowerChar c) = lowerChar c := by
  unfold lowerChar isUpperChar
  split_ifs with h1 h2 <;> simp_all <;> omega

theorem lowerChar_upperChar (c : Nat) : lowerChar (upperChar c) = lowerChar c := by
  unfold lowerChar upperChar isUpperChar isLowChar
  split_ifs with h1 h2 h3 <;> simp_all <;> omega

theorem upperChar_upperChar (c : Nat) : upperChar (upperChar c) = upperChar c := by
  unfold upperChar isLowChar
  split_ifs with h1 h2 <;> simp_all <;> omega

theorem isAlphaChar_lowerChar (c : Nat) : isAlphaChar (lowerChar c) = isAlphaChar c := by
  rw [Bool.eq_iff_iff]
  unfold isAlphaChar isUpperChar isLowChar lowerChar isUpperChar
  split_ifs with h <;>
    simp only [Bool.or_eq_true, decide_eq_true_eq] at h ⊢ <;> omega

theorem isAlphaChar_upperChar (c : Nat) : isAlphaChar (upperChar c) = isAlphaChar c := by
  rw [Bool.eq_iff_iff]
  unfold isAlphaChar isUpperChar isLowChar upperChar isLowChar
  split_ifs with h <;>
    simp only [Bool.or_eq_true, decide_eq_true_eq] at h ⊢ <;> omega

theorem isSpaceChar_lowerChar (c : Nat) : isSpaceChar (lowerChar c) = isSpaceChar c := by
  rw [Bool.eq_iff_iff]
  unfold isSpaceChar lowerChar isUpperChar
  split_ifs with h <;>
    simp only [decide_eq_true_eq] at h ⊢ <;> omega

theorem isSpaceChar_upperChar (c : Nat) : isSpaceChar (upperChar c) = isSpaceChar c := by
  rw [Bool.eq_iff_iff]
  unfold isSpaceChar upperChar isLowChar
  split_ifs with h <;>
    simp only [decide_eq_true_eq] at h ⊢ <;> omega

theorem isSpaceChar_titleChar (b : Bool) (c : Nat) :
    isSpaceChar (titleChar b c) = isSpaceChar c := by
  unfold titleChar
  split_ifs <;> simp [isSpaceChar_lowerChar, isSpaceChar_upperChar]

theorem isAlphaChar_titleChar (b : Bool) (c : Nat) :
    isAlphaChar (titleChar b c) = isAlphaChar c := by
  unfold titleChar
  split_ifs <;> simp [isAlphaChar_lowerChar, isAlphaChar_upperChar]

theorem lowerChar_titleChar (b : Bool) (c : Nat) :
    lowerChar (titleChar b c) = lowerChar c := by
  unfold titleChar
  split_ifs <;> simp [lowerChar_lowerChar, lowerChar_upperChar]

theorem titleChar_titleChar (b : Bool) (c : Nat) :
    titleChar b (titleChar b c) = titleChar b c := by
  unfold titleChar
  by_cases ha : isAlphaChar c = true
  · cases b <;>
      simp [ha, isAlphaChar_lowerChar, isAlphaChar_upperChar,
        lowerChar_lowerChar, upperChar_upperChar]
  · simp [ha]

/-! ### Facts about the Python `title`, `lower` and `strip` models -/

theorem titleGo_length (b : Bool) (l : PyStr) : (titleGo b l).length = l.length := by
  induction l generalizing b with
  | nil => rfl
  | cons c cs ih => simp [titleGo, ih]

theorem map_isSpace_titleGo (b : Bool) (l : PyStr) :
    (titleGo b l).map isSpaceChar = l.map isSpaceChar := by
  induction l generalizing b with
  | nil => rfl
  | cons c cs ih => simp [titleGo, isSpaceChar_titleChar, ih]

theorem pyLower_titleGo (b : Bool) (l : PyStr) :
    pyLower (titleGo b l) = pyLower l := by
  induction l generalizing b with
  | nil => rfl
  | cons c cs ih =>
    simp only [titleGo, pyLower, List.map_cons] at ih ⊢
    rw [lowerChar_titleChar, ih]

theorem titleGo_titleGo (b : Bool) (l : PyStr) :
    titleGo b (titleGo b l) = titleGo b l := by
  induction l generalizing b with
  | nil => rfl
  | cons c cs ih =>
    simp only [titleGo]
    rw [titleChar_titleChar, isAlphaChar_titleChar, ih]

/-- The head of a `dropWhile` result never satisfies the predicate. -/
theorem not_of_dropWhile_eq_cons {p : α → Bool} :
    ∀ {l : List α} {c : α} {cs : List α}, l.dropWhile p = c :: cs → p c = false := by
  intro l
  induction l with
  | nil => intro c cs h; simp [List.dropWhile] at h
  | cons a as ih =>
    intro c cs h
    rw [List.dropWhile_cons] at h
    split at h
    · exact ih h
    · cases h
      simp_all

/-- Transfer `dropWhile p l = l` along a list with the same `p`-profile. -/
theorem dropWhile_eq_self_of_map_eq {p : α → Bool} {u v : List α}
    (hm : u.map p = v.map p) (hu : u.dropWhile p = u) : v.dropWhile p = v := by
  cases u with
  | nil =>
    cases v with
    | nil => rfl
    | cons b bs => simp at hm
  | cons a as =>
    cases v with
    | nil => simp at hm
    | cons b bs =>
      simp only [List.map_cons, List.cons.injEq] at hm
      rw [List.dropWhile_cons] at hu ⊢
      split at hu
      · exfalso
        have hle : (as.dropWhile p).length ≤ as.length :=
          (List.dropWhile_suffix p).length_le
        rw [hu] at hle
        simp at hle
      · rw [if_neg]
        rw [← hm.1]
        assumption

theorem rdropWhile_eq_self_of_map_eq {p : α → Bool} {u v : List α}
    (hm : u.map p = v.map p) (hu : List.rdropWhile p u = u) :
    List.rdropWhile p v = v := by
  unfold List.rdropWhile at hu ⊢
  rw [List.reverse_eq_iff] at hu ⊢
  refine dropWhile_eq_self_of_map_eq ?_ hu
  rw [List.map_reverse, List.map_reverse, hm]

theorem dropWhile_pyStrip (v : PyStr) :
    (pyStrip v).dropWhile isSpaceChar = pyStrip v := by
  unfold pyStrip
  set x := v.dropWhile isSpaceChar with hx
  have hp : List.rdropWhile isSpaceChar x <+: x := List.rdropWhile_prefix _ _
  cases hr : List.rdropWhile isSpaceChar x with
  | nil => rfl
  | cons c cs =>
    rw [hr] at hp
    obtain ⟨t, ht⟩ := hp
    have hcx : x.dropWhile isSpaceChar = x := List.dropWhile_idempotent isSpaceChar v
    have hxc : x = c :: (cs ++ t) := by rw [← ht]; rfl
    have hdw : v.dropWhile isSpaceChar = c :: (cs ++ t) := by
      rw [← hx]
      exact hxc
    have hc : isSpaceChar c = false := not_of_dropWhile_eq_cons hdw
    rw [List.dropWhile_cons, if_neg (by simp [hc])]

theorem rdropWhile_pyStrip (v : PyStr) :
    List.rdropWhile isSpaceChar (pyStrip v) = pyStrip v :=
  List.rdropWhile_idempotent _ _

theorem pyStrip_pyTitle (v : PyStr) :
    pyStrip (pyTitle (pyStrip v)) = pyTitle (pyStrip v) := by
  set s := pyStrip v with hs
  have hm : s.map isSpaceChar = (pyTitle s).map isSpaceChar :=
    (map_isSpace_titleGo false s).symm
  have h1 : (pyTitle s).dropWhile isSpaceChar = pyTitle s :=
    dropWhile_eq_self_of_map_eq hm (dropWhile_pyStrip v)
  have h2 : List.rdropWhile isSpaceChar (pyTitle s) = pyTitle s :=
    rdropWhile_eq_self_of_map_eq hm (rdropWhile_pyStrip v)
  unfold pyStrip
  rw [h1, h2]

/-! ### A counting helper for three-way splits with a remainder -/

/-- If, element-wise, exactly one of `p₁`, `p₂`, `p₃`, `p₄` holds, the four
`countP`s sum to the length. -/
theorem countP_four_split (p₁ p₂ p₃ p₄ : α → Bool)
    (h : ∀ x, (p₁ x || p₂ x || p₃ x || p₄ x) = true ∧
      (p₁ x && p₂ x) = false ∧ (p₁ x && p₃ x) = false ∧ (p₁ x && p₄ x) = false ∧
      (p₂ x && p₃ x) = false ∧ (p₂ x && p₄ x) = false ∧ (p₃ x && p₄ x) = false) :
    ∀ l : List α,
      l.countP p₁ + l.countP p₂ + l.countP p₃ + l.countP p₄ = l.length := by
  intro l
  induction l with
  | nil => rfl
  | cons a as ih =>
    obtain ⟨hor, h12, h13, h14, h23, h24, h34⟩ := h a
    simp only [List.countP_cons, List.length_cons]
    cases hp1 : p₁ a <;> cases hp2 : p₂ a <;> cases hp3 : p₃ a <;> cases hp4 : p₄ a <;>
      simp_all <;> omega

/-- Weighted variant: counting `a`-elements inside each of the four cells
recovers the `a`-count of the whole list. -/
theorem countP_four_split_and (p₁ p₂ p₃ p₄ a : α → Bool)
    (h : ∀ x, (p₁ x || p₂ x || p₃ x || p₄ x) = true ∧
      (p₁ x && p₂ x) = false ∧ (p₁ x && p₃ x) = false ∧ (p₁ x && p₄ x) = false ∧
      (p₂ x && p₃ x) = false ∧ (p₂ x && p₄ x) = false ∧ (p₃ x && p₄ x) = false) :
    ∀ l : List α,
      l.countP (fun x => a x && p₁ x) + l.countP (fun x => a x && p₂ x) +
        l.countP (fun x => a x && p₃ x) + l.countP (fun x => a x && p₄ x) =
        l.countP a := by
  intro l
  induction l with
  | nil => rfl
  | cons x xs ih =>
    obtain ⟨hor, h12, h13, h14, h23, h24, h34⟩ := h x
    simp only [List.countP_cons]
    cases hp1 : p₁ x <;> cases hp2 : p₂ x <;> cases hp3 : p₃ x <;> cases hp4 : p₄ x <;>
      cases ha : a x <;> simp_all <;> omega


example :
    AllPy.assignTeam (AllPy.cleanRow
      ⟨some (pstr "BambooAgent1"), some (pstr "/repo/.m2/settings.xml"),
        some (pstr "High"), none⟩) = some AllPy.Team.dev := by decide

example :
    AllPy.assignTeam (AllPy.cleanRow
      ⟨some (pstr "BambooAgent2"), some (pstr "/var/log/agent.log"),
        some (pstr "High"), none⟩) = some AllPy.Team.sre := by decide

example :
    AllPy.assignTeam (AllPy.cleanRow
      ⟨some (pstr "tableau-srv1"), some (pstr "/opt/app"),
        some (pstr "High"), none⟩) = none := by decide

example :
    Gem.main [] = Except.error Gem.GemError.emptyInput := rfl

example : Gem.normalize_severity (some (pstr "  CRITICAL sev ")) = pstr "Critical" := by decide
example : Gem.normalize_severity (some (pstr "info")) = pstr "Info" := by decide
example : Gem.normalize_severity none = pstr "None" := by decide
example : Gem.normalize_severity (some (pstr "N/A")) = pstr "None" := by decide
example : Gem.normalize_severity (some (pstr "weird Value")) = pstr "Weird Value" := by decide

/-! ### Behaviour of `normalize_severity` branch by branch -/

theorem normalize_severity_passThrough (u : PyStr) (h0 : ¬ pyStrip u = [])
    (hc : ¬ pstr "critical" <:+: pyLower (pyStrip u))
    (hh : ¬ pstr "high" <:+: pyLower (pyStrip u))
    (hm : ¬ pstr "medium" <:+: pyLower (pyStrip u))
    (hlo : ¬ pstr "low" <:+: pyLower (pyStrip u))
    (hs : ¬ (pyLower (pyStrip u) = pstr "none" ∨ pyLower (pyStrip u) = pstr "na" ∨
      pyLower (pyStrip u) = pstr "n/a")) :
    Gem.normalize_severity (some u) = pyTitle (pyStrip u) := by
  simp only [Gem.normalize_severity]
  rw [if_neg h0, if_neg hc, if_neg hh, if_neg hm, if_neg hlo, if_neg hs]

theorem normalize_severity_idem (v : Option PyStr) :
    Gem.normalize_severity (some (Gem.normalize_severity v)) =
      Gem.normalize_severity v := by
  match v with
  | none =>
    show Gem.normalize_severity (some (pstr "None")) = pstr "None"
    decide
  | some u =>
    by_cases h0 : pyStrip u = []
    · have he : Gem.normalize_severity (some u) = pstr "None" := by
        simp only [Gem.normalize_severity]; rw [if_pos h0]
      rw [he]; decide
    · by_cases hc : pstr "critical" <:+: pyLower (pyStrip u)
      · have he : Gem.normalize_severity (some u) = pstr "Critical" := by
          simp only [Gem.normalize_severity]; rw [if_neg h0, if_pos hc]
        rw [he]; decide
      · by_cases hh : pstr "high" <:+: pyLower (pyStrip u)
        · have he : Gem.normalize_severity (some u) = pstr "High" := by
            simp only [Gem.normalize_severity]; rw [if_neg h0, if_neg hc, if_pos hh]
          rw [he]; decide
        · by_cases hm : pstr "medium" <:+: pyLower (pyStrip u)
          · have he : Gem.normalize_severity (some u) = pstr "Medium" := by
              simp only [Gem.normalize_severity]
              rw [if_neg h0, if_neg hc, if_neg hh, if_pos hm]
            rw [he]; decide
          · by_cases hlo : pstr "low" <:+: pyLower (pyStrip u)
            · have he : Gem.normalize_severity (some u) = pstr "Low" := by
                simp only [Gem.normalize_severity]
                rw [if_neg h0, if_neg hc, if_neg hh, if_neg hm, if_pos hlo]
              rw [he]; decide
            · by_cases hs : pyLower (pyStrip u) = pstr "none" ∨
                  pyLower (pyStrip u) = pstr "na" ∨ pyLower (pyStrip u) = pstr "n/a"
              · have he : Gem.normalize_severity (some u) = pstr "None" := by
                  simp only [Gem.normalize_severity]
                  rw [if_neg h0, if_neg hc, if_neg hh, if_neg hm, if_neg hlo, if_pos hs]
                rw [he]; decide
              · rw [normalize_severity_passThrough u h0 hc hh hm hlo hs]
                have hstrip : pyStrip (pyTitle (pyStrip u)) = pyTitle (pyStrip u) :=
                  pyStrip_pyTitle u
                have hne : ¬ pyTitle (pyStrip u) = [] := by
                  intro he
                  apply h0
                  have hl0 : (pyTitle (pyStrip u)).length = (pyStrip u).length :=
                    titleGo_length false (pyStrip u)
                  rw [he] at hl0
                  exact List.length_eq_zero.mp hl0.symm
                have hlow : pyLower (pyTitle (pyStrip u)) = pyLower (pyStrip u) :=
                  pyLower_titleGo false (pyStrip u)
                simp only [Gem.normalize_severity]
                rw [hstrip, if_neg hne, hlow, if_neg hc, if_neg hh, if_neg hm,
                  if_neg hlo, if_neg hs]
                exact titleGo_titleGo false (pyStrip u)

theorem cleanSeverity_idem (v : Option PyStr) :
    AllPy.cleanSeverity (some (AllPy.cleanSeverity v)) = AllPy.cleanSeverity v := by
  unfold AllPy.cleanSeverity
  by_cases h : v.getD (pstr "None") = pstr "none" ∨
      v.getD (pstr "None") = pstr "info" ∨ v.getD (pstr "None") = pstr "Info"
  · rw [if_pos h]
    decide
  · rw [if_neg h, if_neg]
    · simp
    · simpa using h

theorem cleanRow_idem (r : AllPy.Row) :
    AllPy.cleanRow (AllPy.toRow (AllPy.cleanRow r)) = AllPy.cleanRow r := by
  unfold AllPy.cleanRow AllPy.toRow
  simp [cleanSeverity_idem]

/-! ### Partition facts for the two classifiers -/

/-- Element-wise case analysis of gem.py's three masks: they are pairwise
disjoint and cover every record. -/
theorem gem_masks_cases (x : Gem.WorkRow) :
    (Gem.dev_mask_pool x || Gem.sre_mask_pool x || Gem.in_db_team x ||
      (fun _ : Gem.WorkRow => false) x) = true ∧
    (Gem.dev_mask_pool x && Gem.sre_mask_pool x) = false ∧
    (Gem.dev_mask_pool x && Gem.in_db_team x) = false ∧
    (Gem.dev_mask_pool x && (fun _ : Gem.WorkRow => false) x) = false ∧
    (Gem.sre_mask_pool x && Gem.in_db_team x) = false ∧
    (Gem.sre_mask_pool x && (fun _ : Gem.WorkRow => false) x) = false ∧
    (Gem.in_db_team x && (fun _ : Gem.WorkRow => false) x) = false := by
  unfold Gem.dev_mask_pool Gem.sre_mask_pool Gem.in_db_team
  cases hb : Gem.is_bamboo x <;> cases hd : Gem.dev_mask x <;> simp_all

/-- Element-wise case analysis of all.py's masks: pairwise disjoint, and
jointly covering exactly when the record is not a non-bamboo tableau
asset. -/
theorem allPy_masks_cases (x : AllPy.CRow) :
    (AllPy.dev_mask x || AllPy.sre_mask x || AllPy.db_mask x ||
      (fun r => !AllPy.bamboo_mask r && AllPy.tableau_mask r) x) = true ∧
    (AllPy.dev_mask x && AllPy.sre_mask x) = false ∧
    (AllPy.dev_mask x && AllPy.db_mask x) = false ∧
    (AllPy.dev_mask x && (fun r => !AllPy.bamboo_mask r && AllPy.tableau_mask r) x) = false ∧
    (AllPy.sre_mask x && AllPy.db_mask x) = false ∧
    (AllPy.sre_mask x && (fun r => !AllPy.bamboo_mask r && AllPy.tableau_mask r) x) = false ∧
    (AllPy.db_mask x && (fun r => !AllPy.bamboo_mask r && AllPy.tableau_mask r) x) = false := by
  cases hb : AllPy.bamboo_mask x <;> cases hd : AllPy.devLoc_mask x <;>
    cases ht : AllPy.tableau_mask x <;>
      simp_all [AllPy.dev_mask, AllPy.sre_mask, AllPy.db_mask]

/-- gem.py's team frames partition the rows. -/
theorem gem_split_length (rows : List Gem.Row) :
    (Gem.df_dev rows).length + (Gem.df_sre rows).length + (Gem.df_db rows).length =
      rows.length := by
  have h4 := countP_four_split
    Gem.dev_mask_pool Gem.sre_mask_pool Gem.in_db_team (fun _ => false)
    gem_masks_cases (rows.map Gem.toWork)
  simp only [List.countP_false, Function.const_apply, Nat.add_zero,
    List.length_map] at h4
  unfold Gem.df_dev Gem.df_sre Gem.df_db
  rw [← List.countP_eq_length_filter, ← List.countP_eq_length_filter,
    ← List.countP_eq_length_filter]
  exact h4

/-- all.py's team frames partition the rows up to the excluded non-bamboo
tableau records. -/
theorem allPy_split_length (rows : List AllPy.Row) :
    (AllPy.dev_team_df rows).length + (AllPy.sre_team_df rows).length +
      (AllPy.db_team_df rows).length +
      (rows.map AllPy.cleanRow).countP
        (fun r => !AllPy.bamboo_mask r && AllPy.tableau_mask r) = rows.length := by
  have h4 := countP_four_split
    AllPy.dev_mask AllPy.sre_mask AllPy.db_mask
    (fun r => !AllPy.bamboo_mask r && AllPy.tableau_mask r)
    allPy_masks_cases (rows.map AllPy.cleanRow)
  simp only [List.length_map] at h4
  unfold AllPy.dev_team_df AllPy.sre_team_df AllPy.db_team_df
  rw [← List.countP_eq_length_filter, ← List.countP_eq_length_filter,
    ← List.countP_eq_length_filter]
  exact h4

/-- Counting with any weight predicate distributes over gem.py's three
team frames. -/
theorem gem_countP_groups (a : Gem.WorkRow → Bool) (rows : List Gem.Row) :
    (Gem.df_dev rows).countP a + (Gem.df_sre rows).countP a +
      (Gem.df_db rows).countP a = (rows.map Gem.toWork).countP a := by
  have h4 := countP_four_split_and
    Gem.dev_mask_pool Gem.sre_mask_pool Gem.in_db_team (fun _ => false) a
    gem_masks_cases (rows.map Gem.toWork)
  simp only [Bool.and_false, List.countP_false, Function.const_apply,
    Nat.add_zero] at h4
  unfold Gem.df_dev Gem.df_sre Gem.df_db
  rw [List.countP_filter, List.countP_filter, List.countP_filter]
  exact h4

/-! ## The claims -/

/-- C1 (corrected): the broker-profile classifier of all.py assigns a
non-bamboo tableau record to no team at all, so the per-group counts do
not sum to the input size. -/
theorem C1_counterexample :
    ¬ ((AllPy.dev_team_df [⟨some (pstr "tableau-srv1"), some (pstr "/opt/app"),
          some (pstr "High"), none⟩]).length +
        (AllPy.sre_team_df [⟨some (pstr "tableau-srv1"), some (pstr "/opt/app"),
          some (pstr "High"), none⟩]).length +
        (AllPy.db_team_df [⟨some (pstr "tableau-srv1"), some (pstr "/opt/app"),
          some (pstr "High"), none⟩]).length =
      ([⟨some (pstr "tableau-srv1"), some (pstr "/opt/app"),
          some (pstr "High"), none⟩] : List AllPy.Row).length) := by decide

/-- C1 (amended): gem.py's Dev/SRE/DB groups are pairwise disjoint and
exhaustive, so their sizes sum to the number of input records; all.py's
groups are pairwise disjoint, and they cover everything except the
non-bamboo tableau records, so their sizes sum to the number of input
records minus the number of excluded tableau records. -/
theorem C1_partition :
    (∀ rows : List Gem.Row,
      (Gem.df_dev rows).length + (Gem.df_sre rows).length +
        (Gem.df_db rows).length = rows.length) ∧
    (∀ r : AllPy.CRow,
      (AllPy.dev_mask r && AllPy.sre_mask r) = false ∧
      (AllPy.dev_mask r && AllPy.db_mask r) = false ∧
      (AllPy.sre_mask r && AllPy.db_mask r) = false ∧
      (AllPy.dev_mask r || AllPy.sre_mask r || AllPy.db_mask r ||
        (!AllPy.bamboo_mask r && AllPy.tableau_mask r)) = true) ∧
    (∀ rows : List AllPy.Row,
      (AllPy.dev_team_df rows).length + (AllPy.sre_team_df rows).length +
        (AllPy.db_team_df rows).length +
        (rows.map AllPy.cleanRow).countP
          (fun r => !AllPy.bamboo_mask r && AllPy.tableau_mask r) =
        rows.length) := by
  refine ⟨gem_split_length, fun r => ?_, allPy_split_length⟩
  obtain ⟨h1, h2, h3, _, h5, _, _⟩ := allPy_masks_cases r
  exact ⟨h2, h3, h5, h1⟩

/-- C2 (corrected): for a single non-bamboo tableau record the Total
column of the summary reports 0 while the input holds 1 record. -/
theorem C2_counterexample :
    ¬ (AllPy.total_counts [⟨some (pstr "tableau-srv1"), some (pstr "/opt/app"),
          some (pstr "High"), none⟩] (pstr "Total") =
        ([⟨some (pstr "tableau-srv1"), some (pstr "/opt/app"),
          some (pstr "High"), none⟩] : List AllPy.Row).length) := by decide

/-- C2 (amended): the Total summary is the key-wise sum of the three group
summaries, and its `Total` cell counts the records assigned to some group —
the input size minus the number of excluded non-bamboo tableau records. -/
theorem C2_total_summary :
    (∀ (rows : List AllPy.Row) (key : PyStr),
      AllPy.total_counts rows key =
        AllPy.get_severity_counts (AllPy.dev_team_df rows) key +
          AllPy.get_severity_counts (AllPy.sre_team_df rows) key +
          AllPy.get_severity_counts (AllPy.db_team_df rows) key) ∧
    (∀ rows : List AllPy.Row,
      AllPy.total_counts rows (pstr "Total") +
        (rows.map AllPy.cleanRow).countP
          (fun r => !AllPy.bamboo_mask r && AllPy.tableau_mask r) =
        rows.length) := by
  constructor
  · intro rows key
    rfl
  · intro rows
    have h := allPy_split_length rows
    unfold AllPy.total_counts AllPy.get_severity_counts
    rw [if_pos rfl]
    exact h

/-- C3: under the two-level broker profile of all.py, a record whose asset
name contains "bamboo" case-insensitively is assigned to Dev exactly when
its location path contains ".m2" or "xml-data", and to SRE otherwise; in
particular ("BambooAgent1", "/repo/.m2/settings.xml") goes to Dev and
("BambooAgent2", "/var/log/agent.log") goes to SRE. -/
theorem C3_two_level_routing :
    (∀ r : AllPy.CRow, AllPy.bamboo_mask r = true →
      AllPy.assignTeam r =
        (if AllPy.devLoc_mask r then some AllPy.Team.dev else some AllPy.Team.sre)) ∧
    AllPy.assignTeam (AllPy.cleanRow
      ⟨some (pstr "BambooAgent1"), some (pstr "/repo/.m2/settings.xml"),
        some (pstr "High"), none⟩) = some AllPy.Team.dev ∧
    AllPy.assignTeam (AllPy.cleanRow
      ⟨some (pstr "BambooAgent2"), some (pstr "/var/log/agent.log"),
        some (pstr "High"), none⟩) = some AllPy.Team.sre := by
  refine ⟨?_, by decide, by decide⟩
  intro r hb
  unfold AllPy.assignTeam
  cases hd : AllPy.devLoc_mask r <;>
    simp [AllPy.dev_mask, AllPy.sre_mask, hb, hd]

/-- Witness for C3 at the BambooAgent1 record. -/
theorem C3_two_level_routing_witness :
    AllPy.bamboo_mask (AllPy.cleanRow
      ⟨some (pstr "BambooAgent1"), some (pstr "/repo/.m2/settings.xml"),
        some (pstr "High"), none⟩) = true ∧
    AllPy.assignTeam (AllPy.cleanRow
      ⟨some (pstr "BambooAgent1"), some (pstr "/repo/.m2/settings.xml"),
        some (pstr "High"), none⟩) =
      (if AllPy.devLoc_mask (AllPy.cleanRow
          ⟨some (pstr "BambooAgent1"), some (pstr "/repo/.m2/settings.xml"),
            some (pstr "High"), none⟩) then some AllPy.Team.dev
        else some AllPy.Team.sre) :=
  ⟨by decide, C3_two_level_routing.1 _ (by decide)⟩

/-- C4 (corrected): neither normalizer maps every letter case of the
severity synonyms to "None" — gem.py's `normalize_severity` sends "info"
to the pass-through value "Info", and all.py's exact-value `replace`
leaves "INFO" untouched. -/
theorem C4_counterexample :
    Gem.normalize_severity (some (pstr "info")) = pstr "Info" ∧
    ¬ Gem.normalize_severity (some (pstr "info")) = pstr "None" ∧
    AllPy.cleanSeverity (some (pstr "INFO")) = pstr "INFO" ∧
    ¬ AllPy.cleanSeverity (some (pstr "INFO")) = pstr "None" := by decide

/-- C4 (amended): a missing severity is normalized to "None" and counted in
the "None" row of its group and of Total; gem.py maps "none" (any letter
case, trimmed) to "None" but title-cases "info"; all.py replaces only the
exact strings "none", "info" and "Info" with "None". -/
theorem C4_missing_severity :
    Gem.normalize_severity none = pstr "None" ∧
    AllPy.cleanSeverity none = pstr "None" ∧
    (∀ v : PyStr, pyLower (pyStrip v) = pstr "none" →
      Gem.normalize_severity (some v) = pstr "None") ∧
    Gem.normalize_severity (some (pstr "info")) = pstr "Info" ∧
    (AllPy.cleanSeverity (some (pstr "none")) = pstr "None" ∧
      AllPy.cleanSeverity (some (pstr "info")) = pstr "None" ∧
      AllPy.cleanSeverity (some (pstr "Info")) = pstr "None") ∧
    (∀ r : Gem.Row, r.vendorSeverity = none →
      Gem.severityNorm (Gem.toWork r) = pstr "None") ∧
    (∀ rows : List Gem.Row,
      Gem.dictGet (Gem.counts_total rows) (pstr "None") =
        ((rows.map Gem.toWork).map Gem.severityNorm).countP (· == pstr "None")) ∧
    (∀ rows : List Gem.Row,
      Gem.dictGet (Gem.counts_dev rows) (pstr "None") +
        Gem.dictGet (Gem.counts_sre rows) (pstr "None") +
        Gem.dictGet (Gem.counts_db rows) (pstr "None") =
        Gem.dictGet (Gem.counts_total rows) (pstr "None")) := by
  refine ⟨by decide, by decide, ?_, by decide, by decide, ?_, ?_, ?_⟩
  · intro v h
    have hne : ¬ pyStrip v = [] := by
      intro h0
      rw [h0] at h
      exact absurd h (by decide)
    simp only [Gem.normalize_severity]
    rw [if_neg hne, h,
      if_neg (by decide : ¬ pstr "critical" <:+: pstr "none"),
      if_neg (by decide : ¬ pstr "high" <:+: pstr "none"),
      if_neg (by decide : ¬ pstr "medium" <:+: pstr "none"),
      if_neg (by decide : ¬ pstr "low" <:+: pstr "none"),
      if_pos (by decide : pstr "none" = pstr "none" ∨ pstr "none" = pstr "na" ∨
        pstr "none" = pstr "n/a")]
  · intro r h
    unfold Gem.severityNorm Gem.toWork
    rw [h]
    show Gem.normalize_severity (some ((none : Option PyStr).getD [])) = pstr "None"
    decide
  · intro rows
    rfl
  · intro rows
    have hdev : Gem.dictGet (Gem.counts_dev rows) (pstr "None") =
        (Gem.df_dev rows).countP (fun w => Gem.severityNorm w == pstr "None") := by
      show ((Gem.df_dev rows).map Gem.severityNorm).countP (· == pstr "None") = _
      rw [List.countP_map]
      rfl
    have hsre : Gem.dictGet (Gem.counts_sre rows) (pstr "None") =
        (Gem.df_sre rows).countP (fun w => Gem.severityNorm w == pstr "None") := by
      show ((Gem.df_sre rows).map Gem.severityNorm).countP (· == pstr "None") = _
      rw [List.countP_map]
      rfl
    have hdb : Gem.dictGet (Gem.counts_db rows) (pstr "None") =
        (Gem.df_db rows).countP (fun w => Gem.severityNorm w == pstr "None") := by
      show ((Gem.df_db rows).map Gem.severityNorm).countP (· == pstr "None") = _
      rw [List.countP_map]
      rfl
    have htot : Gem.dictGet (Gem.counts_total rows) (pstr "None") =
        (rows.map Gem.toWork).countP (fun w => Gem.severityNorm w == pstr "None") := by
      show ((rows.map Gem.toWork).map Gem.severityNorm).countP (· == pstr "None") = _
      rw [List.countP_map]
      rfl
    rw [hdev, hsre, hdb, htot]
    exact gem_countP_groups _ rows

/-- Witness for C4 at the record "NoNe" and a missing-severity row. -/
theorem C4_missing_severity_witness :
    (pyLower (pyStrip (pstr "NoNe")) = pstr "none" ∧
      Gem.normalize_severity (some (pstr "NoNe")) = pstr "None") ∧
    ((⟨some (pstr "bambooX"), some (pstr "/a"), none⟩ : Gem.Row).vendorSeverity = none ∧
      Gem.severityNorm (Gem.toWork ⟨some (pstr "bambooX"), some (pstr "/a"), none⟩) =
        pstr "None") :=
  ⟨⟨by decide, C4_missing_severity.2.2.1 (pstr "NoNe") (by decide)⟩,
    ⟨rfl, C4_missing_severity.2.2.2.2.2.1
      ⟨some (pstr "bambooX"), some (pstr "/a"), none⟩ rfl⟩⟩

/-- C5 (corrected): gem.py's normalizer does not title-case every
unrecognized non-empty value — "na" contains none of the four recognized
substrings, yet it is mapped to "None" rather than preserved as "Na". -/
theorem C5_counterexample :
    Gem.normalize_severity (some (pstr "na")) = pstr "None" ∧
    pyTitle (pyStrip (pstr "na")) = pstr "Na" ∧
    ¬ pstr "critical" <:+: pyLower (pyStrip (pstr "na")) ∧
    ¬ pstr "high" <:+: pyLower (pyStrip (pstr "na")) ∧
    ¬ pstr "medium" <:+: pyLower (pyStrip (pstr "na")) ∧
    ¬ pstr "low" <:+: pyLower (pyStrip (pstr "na")) ∧
    ¬ Gem.normalize_severity (some (pstr "na")) = pyTitle (pyStrip (pstr "na")) := by
  decide

/-- C5 (amended): `normalize_severity` is closed over the taxonomy plus
title-cased pass-through; a recognized substring wins in the priority
order critical > high > medium > low; the none-synonyms "none", "na",
"n/a" (case-insensitive, trimmed) map to "None"; every other non-empty
value is preserved title-cased. -/
theorem C5_severity_closure :
    (∀ v : Option PyStr,
      Gem.normalize_severity v ∈ Gem.categories ∨
        Gem.normalize_severity v = pyTitle (pyStrip (v.getD []))) ∧
    (∀ u : PyStr, pstr "critical" <:+: pyLower (pyStrip u) →
      Gem.normalize_severity (some u) = pstr "Critical") ∧
    (∀ u : PyStr, ¬ pstr "critical" <:+: pyLower (pyStrip u) →
      pstr "high" <:+: pyLower (pyStrip u) →
      Gem.normalize_severity (some u) = pstr "High") ∧
    (∀ u : PyStr, ¬ pstr "critical" <:+: pyLower (pyStrip u) →
      ¬ pstr "high" <:+: pyLower (pyStrip u) →
      pstr "medium" <:+: pyLower (pyStrip u) →
      Gem.normalize_severity (some u) = pstr "Medium") ∧
    (∀ u : PyStr, ¬ pstr "critical" <:+: pyLower (pyStrip u) →
      ¬ pstr "high" <:+: pyLower (pyStrip u) →
      ¬ pstr "medium" <:+: pyLower (pyStrip u) →
      pstr "low" <:+: pyLower (pyStrip u) →
      Gem.normalize_severity (some u) = pstr "Low") ∧
    (∀ u : PyStr, ¬ pyStrip u = [] →
      ¬ pstr "critical" <:+: pyLower (pyStrip u) →
      ¬ pstr "high" <:+: pyLower (pyStrip u) →
      ¬ pstr "medium" <:+: pyLower (pyStrip u) →
      ¬ pstr "low" <:+: pyLower (pyStrip u) →
      ¬ (pyLower (pyStrip u) = pstr "none" ∨ pyLower (pyStrip u) = pstr "na" ∨
        pyLower (pyStrip u) = pstr "n/a") →
      Gem.normalize_severity (some u) = pyTitle (pyStrip u)) := by
  have hne : ∀ u : PyStr, ∀ w : PyStr, w <:+: pyLower (pyStrip u) →
      0 < w.length → ¬ pyStrip u = [] := by
    intro u w hw hlen h0
    have h2 := hw.length_le
    rw [h0] at h2
    simp only [pyLower, List.map_nil, List.length_nil, Nat.le_zero,
      List.length_eq_zero] at h2
    subst h2
    exact absurd hlen (by simp)
  refine ⟨?_, ?_, ?_, ?_, ?_, ?_⟩
  · intro v
    match v with
    | none => left; decide
    | some u =>
      simp only [Gem.normalize_severity, Option.getD_some]
      split_ifs <;> first
        | (left; decide)
        | (right; rfl)
  · intro u hc
    simp only [Gem.normalize_severity]
    rw [if_neg (hne u _ hc (by decide)), if_pos hc]
  · intro u hc hh
    simp only [Gem.normalize_severity]
    rw [if_neg (hne u _ hh (by decide)), if_neg hc, if_pos hh]
  · intro u hc hh hm
    simp only [Gem.normalize_severity]
    rw [if_neg (hne u _ hm (by decide)), if_neg hc, if_neg hh, if_pos hm]
  · intro u hc hh hm hlo
    simp only [Gem.normalize_severity]
    rw [if_neg (hne u _ hlo (by decide)), if_neg hc, if_neg hh, if_neg hm, if_pos hlo]
  · intro u h0 hc hh hm hlo hs
    exact normalize_severity_passThrough u h0 hc hh hm hlo hs

/-- Witness for C5 at the raw value "SuperCRITICAL issue". -/
theorem C5_severity_closure_witness :
    pstr "critical" <:+: pyLower (pyStrip (pstr "SuperCRITICAL issue")) ∧
    Gem.normalize_severity (some (pstr "SuperCRITICAL issue")) = pstr "Critical" :=
  ⟨by decide, C5_severity_closure.2.1 (pstr "SuperCRITICAL issue") (by decide)⟩

/-- C6: the exploit sub-count at Critical (resp. High) equals the number of
group records at that normalized severity whose exploit flag, lower-cased,
is "yes" or "true"; the summary's `HasExploit_True` column carries a value
only in the Critical and High rows. -/
theorem C6_exploit_subcounts :
    (∀ df : List AllPy.CRow,
      Gem.dictGet (AllPy.get_exploit_counts true df) (pstr "Critical") =
        df.countP fun r =>
          r.vendorSeverity == pstr "Critical" && AllPy.exploit_mask r) ∧
    (∀ df : List AllPy.CRow,
      Gem.dictGet (AllPy.get_exploit_counts true df) (pstr "High") =
        df.countP fun r =>
          r.vendorSeverity == pstr "High" && AllPy.exploit_mask r) ∧
    (∀ (hasCol : Bool) (rows : List AllPy.Row),
      AllPy.hasExploitTrueColumn hasCol rows =
        [none,
          some (Gem.dictGet
            (AllPy.get_exploit_counts hasCol (AllPy.sre_team_df rows)) (pstr "Critical")),
          some (Gem.dictGet
            (AllPy.get_exploit_counts hasCol (AllPy.sre_team_df rows)) (pstr "High")),
          none, none, none]) := by
  refine ⟨?_, ?_, fun hasCol rows => rfl⟩
  · intro df
    have hcnt : AllPy.exploit_sev_count df (pstr "Critical") =
        df.countP (fun r => r.vendorSeverity == pstr "Critical" && AllPy.exploit_mask r) :=
      List.countP_filter _ AllPy.exploit_mask df
    by_cases h0 : df.length = 0
    · obtain rfl : df = [] := List.length_eq_zero.mp h0
      rfl
    · unfold AllPy.get_exploit_counts
      rw [if_neg h0]
      by_cases hp : 0 < AllPy.exploit_sev_count df (pstr "Critical")
      · rw [if_pos hp]
        show AllPy.exploit_sev_count df (pstr "Critical") = _
        exact hcnt
      · rw [if_neg hp]
        by_cases hq : 0 < AllPy.exploit_sev_count df (pstr "High")
        · rw [if_pos hq]
          show (0 : Nat) = _
          omega
        · rw [if_neg hq]
          show (0 : Nat) = _
          omega
  · intro df
    have hcnt : AllPy.exploit_sev_count df (pstr "High") =
        df.countP (fun r => r.vendorSeverity == pstr "High" && AllPy.exploit_mask r) :=
      List.countP_filter _ AllPy.exploit_mask df
    by_cases h0 : df.length = 0
    · obtain rfl : df = [] := List.length_eq_zero.mp h0
      rfl
    · unfold AllPy.get_exploit_counts
      rw [if_neg h0]
      by_cases hp : 0 < AllPy.exploit_sev_count df (pstr "Critical")
      · rw [if_pos hp]
        by_cases hq : 0 < AllPy.exploit_sev_count df (pstr "High")
        · rw [if_pos hq]
          show AllPy.exploit_sev_count df (pstr "High") = _
          exact hcnt
        · rw [if_neg hq]
          show (0 : Nat) = _
          omega
      · rw [if_neg hp]
        by_cases hq : 0 < AllPy.exploit_sev_count df (pstr "High")
        · rw [if_pos hq]
          show AllPy.exploit_sev_count df (pstr "High") = _
          exact hcnt
        · rw [if_neg hq]
          show (0 : Nat) = _
          omega

/-- C7: a zero-row input makes gem.py's `main` stop with the empty-input
error before any classification; a successful run implies the input was
non-empty. -/
theorem C7_empty_input :
    (∀ rows : List Gem.Row, rows.length = 0 →
      Gem.main rows = Except.error Gem.GemError.emptyInput) ∧
    (∀ (rows : List Gem.Row) (out : Gem.Output),
      Gem.main rows = Except.ok out → rows ≠ []) := by
  constructor
  · intro rows h
    unfold Gem.main
    rw [if_pos h]
  · intro rows out h hnil
    subst hnil
    simp [Gem.main] at h

/-- Witness for C7 at the empty table. -/
theorem C7_empty_input_witness :
    ([] : List Gem.Row).length = 0 ∧
      Gem.main [] = Except.error Gem.GemError.emptyInput :=
  ⟨rfl, C7_empty_input.1 [] rfl⟩

/-- C8 (code bug): the misspelled drop of gem.py lines 168-170 targets
`__severity_norm__` while the helper column added on lines 157-160 is
`___severity_norm__`, so every exported team table keeps the extra helper
column; dropping the correctly spelled name would have removed it. -/
theorem C8_helper_column_exported :
    Gem.savedColumns ["AssetName", "LocationPath", "VendorSeverity"] =
      ["AssetName", "LocationPath", "VendorSeverity", "___severity_norm__"] ∧
    (∀ baseCols : List String,
      (Gem.savedColumns baseCols).contains "___severity_norm__" = true) ∧
    (∀ baseCols : List String,
      ((Gem.dropColumns (Gem.exportedColumns baseCols)
        ["___severity_norm__"]).contains "___severity_norm__") = false) := by
  refine ⟨by decide, ?_, ?_⟩
  · intro base
    rw [List.contains_eq_any_beq]
    rw [List.any_eq_true]
    refine ⟨"___severity_norm__", ?_, by decide⟩
    unfold Gem.savedColumns Gem.dropColumns Gem.exportedColumns
    rw [List.mem_filter]
    exact ⟨List.mem_append_right _ (by decide), by decide⟩
  · intro base
    rw [List.contains_eq_any_beq]
    rw [Bool.eq_false_iff]
    intro hx
    rw [List.any_eq_true] at hx
    obtain ⟨c, hc, hbeq⟩ := hx
    unfold Gem.dropColumns Gem.exportedColumns at hc
    rw [List.mem_filter] at hc
    have hcne : c = "___severity_norm__" := by
      have := of_decide_eq_true hbeq
      exact (String.ext_iff.mpr (by simpa [String.ext_iff] using this)).symm ▸ rfl
    apply absurd hc.2
    rw [hcne]
    decide

/-- C9: the Normalizer and the Classification Engine are pure functions and
idempotent — re-normalizing gem.py's normalized severity returns it
unchanged, and re-cleaning and re-classifying all.py's cleaned record
yields the same record and the same group. -/
theorem C9_idempotent :
    (∀ v : Option PyStr,
      Gem.normalize_severity (some (Gem.normalize_severity v)) =
        Gem.normalize_severity v) ∧
    (∀ r : AllPy.Row,
      AllPy.cleanRow (AllPy.toRow (AllPy.cleanRow r)) = AllPy.cleanRow r) ∧
    (∀ r : AllPy.Row,
      AllPy.assignTeam (AllPy.cleanRow (AllPy.toRow (AllPy.cleanRow r))) =
        AllPy.assignTeam (AllPy.cleanRow r)) :=
  ⟨normalize_severity_idem, cleanRow_idem, fun r => by rw [cleanRow_idem]⟩

/-- C10: with the `HasExploit` column absent, or an empty group, the
exploit-count computations of all.py and refactor.py return zero for every
key without failing, and the summary's exploit column is all zeros. -/
theorem C10_missing_exploit_column :
    (∀ (df : List AllPy.CRow) (k : PyStr),
      Gem.dictGet (AllPy.get_exploit_counts false df) k = 0) ∧
    (∀ (hasCol : Bool) (k : PyStr),
      Gem.dictGet (AllPy.get_exploit_counts hasCol []) k = 0) ∧
    (∀ df : List AllPy.CRow, Refactor.get_hasexploit_counts false df = (0, 0)) ∧
    (∀ rows : List AllPy.Row,
      AllPy.hasExploitTrueColumn false rows =
        [none, some 0, some 0, none, none, none]) := by
  have hfalse : ∀ df : List AllPy.CRow, AllPy.get_exploit_counts false df = [] := by
    intro df
    unfold AllPy.get_exploit_counts
    by_cases h0 : df.length = 0
    · rw [if_pos h0]
    · rw [if_neg h0]
      rfl
  refine ⟨?_, ?_, fun df => rfl, ?_⟩
  · intro df k
    rw [hfalse df]
    rfl
  · intro hasCol k
    rfl
  · intro rows
    unfold AllPy.hasExploitTrueColumn
    rw [hfalse]
    rfl

end WizSpec
